import Mathlib

/-!
Verification of the reconciliation logic of the serverless-components/aws-lambda
component against its natural-language specification.

The development shallowly embeds the JavaScript sources:

* src/src/utils.js — prepareInputs, createRole/getRole/removeRole,
  createLambdaFunction (with its role-propagation retry), updateLambdaFunctionCode,
  updateLambdaFunctionConfig, getLambdaFunction, deleteLambdaFunction, inputsChanged;
* src/src/serverless.js — AwsLambda.deploy and AwsLambda.remove;
* src/unnamed/part_002 — configChanged (textually identical to inputsChanged);
* src/unnamed/part_003 and part_004 — the configChanged-guarded update branch of
  the older deploy generations;
* src/unnamed/part_001 — removeAllRoles.

Provider interactions are modelled as explicit operation traces (`Op`), with the
provider's responses supplied as environments; JavaScript truthiness and ramda's
`pick` on open objects are modelled explicitly.
-/

namespace SlsAwsLambda

/-- JavaScript truthiness of an optional string: `undefined` and the empty
string are falsy, every other string is truthy. -/
def jsTruthyStr : Option String → Bool
  | some s => decide (s ≠ "")
  | none => false

/-- JavaScript `a || b` for strings with a mandatory fallback, as used by
prepareInputs defaults (src/src/utils.js lines 44-62). -/
def jsOrStr (a : Option String) (b : String) : String :=
  match a with
  | some s => if s = "" then b else s
  | none => b

/-- JavaScript `a || b` for numbers (0 is falsy), as used for memory/timeout
defaults in prepareInputs. -/
def jsOrInt (a : Option Int) (b : Int) : Int :=
  match a with
  | some n => if n = 0 then b else n
  | none => b

/-- JavaScript `a || b` where both operands may be `undefined`, as in
`inputs.roleArn || instance.state.roleArn`. -/
def jsOrOpt (a b : Option String) : Option String :=
  if jsTruthyStr a then a else b

/-- The JavaScript values that flow through the change detector and the
fetched function state: strings, numbers, booleans, arrays of strings
(layers, security group ids, subnet ids) and flat string-valued objects
(environment variables, the nested `role` object). `undef` models a key
that is present with value `undefined`. -/
inductive JsVal where
  | undef
  | bool (b : Bool)
  | num (n : Int)
  | str (s : String)
  | strList (xs : List String)
  | strObj (kvs : List (String × String))
deriving DecidableEq, Repr

/-- A JavaScript object as an association list; a key that does not occur in
the list is absent from the object. -/
def JsObj : Type := List (String × JsVal)

instance : DecidableEq JsObj := by
  unfold JsObj
  infer_instance

/-- ramda's `pick keys obj`: the sub-object of `obj` on the keys of `keys`
that are present in `obj`, in the order of `keys`. -/
def pick (keys : List String) (o : JsObj) : JsObj :=
  match keys with
  | [] => []
  | k :: ks =>
    match List.lookup k o with
    | some v => (k, v) :: pick ks o
    | none => pick ks o

/-- The comparable field set of the change detector, exactly the `keys` list of
inputsChanged (src/src/utils.js lines 324-335) and configChanged
(src/unnamed/part_002 lines 339-350). -/
def changeKeys : List String :=
  ["description", "runtime", "roleArn", "handler", "memory", "timeout", "env",
   "hash", "securityGroupIds", "subnetIds"]

/-- inputsChanged (src/src/utils.js lines 323-339): pick the comparable keys
from both objects and report a change when the projections differ. -/
def inputsChanged (prevLambda lambda : JsObj) : Bool :=
  !(decide (pick changeKeys lambda = pick changeKeys prevLambda))

/-- configChanged (src/unnamed/part_002 lines 338-354), whose body is
textually identical to inputsChanged in src/src/utils.js. -/
def configChanged (prevLambda lambda : JsObj) : Bool :=
  inputsChanged prevLambda lambda

/-- The success payload of the provider's getFunctionConfiguration call, with
the fields read by getLambdaFunction (src/src/utils.js lines 248-278).
`Environment` is optional and `VpcConfig` carries the security group and
subnet id lists when present. -/
structure FunctionConfigResponse where
  FunctionName : String
  Description : String
  Timeout : Int
  Runtime : String
  Role : String
  Handler : String
  MemorySize : Int
  CodeSha256 : String
  Environment : Option (List (String × String))
  FunctionArn : String
  VpcConfig : Option (List String × List String)
deriving DecidableEq, Repr

/-- The object built by getLambdaFunction from a successful response: note the
role ARN is exposed only under the nested key `role.arn`, and the security
group / subnet id fields are `false` when the response has no VpcConfig. -/
structure ObservedLambda where
  name : String
  description : String
  timeout : Int
  runtime : String
  roleArnNested : String
  handler : String
  memory : Int
  hash : String
  env : List (String × String)
  arn : String
  securityGroupIds : Option (List String)
  subnetIds : Option (List String)
deriving DecidableEq, Repr

/-- getLambdaFunction (src/src/utils.js lines 248-278), success path: map the
provider response to the observed-state object.  The ResourceNotFoundException
path (returning null) is modelled at the call sites by an `Option`. -/
def getLambdaFunction (res : FunctionConfigResponse) : ObservedLambda :=
  { name := res.FunctionName
    description := res.Description
    timeout := res.Timeout
    runtime := res.Runtime
    roleArnNested := res.Role
    handler := res.Handler
    memory := res.MemorySize
    hash := res.CodeSha256
    env := res.Environment.getD []
    arn := res.FunctionArn
    securityGroupIds := res.VpcConfig.map (fun v => v.1)
    subnetIds := res.VpcConfig.map (fun v => v.2) }

/-- The observed-state object as the JavaScript object literal that
getLambdaFunction returns: `role` is a nested object holding the ARN, there is
no `roleArn` key, and absent VpcConfig yields the boolean `false`. -/
def ObservedLambda.toJs (o : ObservedLambda) : JsObj :=
  [("name", JsVal.str o.name),
   ("description", JsVal.str o.description),
   ("timeout", JsVal.num o.timeout),
   ("runtime", JsVal.str o.runtime),
   ("role", JsVal.strObj [("arn", o.roleArnNested)]),
   ("handler", JsVal.str o.handler),
   ("memory", JsVal.num o.memory),
   ("hash", JsVal.str o.hash),
   ("env", JsVal.strObj o.env),
   ("arn", JsVal.str o.arn),
   ("securityGroupIds", match o.securityGroupIds with
     | some xs => JsVal.strList xs
     | none => JsVal.bool false),
   ("subnetIds", match o.subnetIds with
     | some xs => JsVal.strList xs
     | none => JsVal.bool false)]

/-- The vpcConfig input object (`securityGroupIds` + `subnetIds`). -/
structure VpcConfigInput where
  securityGroupIds : List String
  subnetIds : List String
deriving DecidableEq, Repr

/-- Raw user inputs to deploy.  JavaScript objects are open, so fields that
prepareInputs never reads (such as provisionedConcurrency and aliasName) are
still representable and are simply ignored. -/
structure RawInputs where
  name : Option String := none
  roleArn : Option String := none
  description : Option String := none
  memory : Option Int := none
  timeout : Option Int := none
  src : Option String := none
  handler : Option String := none
  env : Option (List (String × String)) := none
  region : Option String := none
  layers : Option (List String) := none
  vpcConfig : Option VpcConfigInput := none
  provisionedConcurrency : Option Int := none
  aliasName : Option String := none
deriving DecidableEq, Repr

/-- The component state persisted by src/src/serverless.js: `name`, `region`,
`arn` and `autoRoleArn` are written by deploy; `roleArn` is never written by
this generation but is read by prepareInputs. -/
structure ComponentState where
  name : Option String := none
  region : Option String := none
  arn : Option String := none
  autoRoleArn : Option String := none
  roleArn : Option String := none
deriving DecidableEq, Repr

/-- The component instance: its persisted state, the stage and the source
size used by the 100MB guard. -/
structure ComponentInstance where
  state : ComponentState
  stage : String
  size : Nat := 0
deriving DecidableEq, Repr

/-- The canonical desired state produced by prepareInputs. -/
structure PreparedInputs where
  name : String
  roleArn : Option String
  roleName : String
  description : String
  memory : Int
  timeout : Int
  src : String
  handler : String
  runtime : String
  env : List (String × String)
  region : String
  layers : List String
  securityGroupIds : Option (List String)
  subnetIds : Option (List String)
deriving DecidableEq, Repr

/-- prepareInputs (src/src/utils.js lines 44-62).  `randomId` stands for the
module-level random id and `cwd` for process.cwd(); `none` in the
securityGroupIds/subnetIds fields models the JavaScript value `false` chosen
when no vpcConfig is given.  The provisionedConcurrency and aliasName fields
of the raw inputs are not read anywhere. -/
def prepareInputs (inputs : RawInputs) (inst : ComponentInstance)
    (randomId cwd : String) : PreparedInputs :=
  { name := jsOrStr inputs.name
      (jsOrStr inst.state.name ("aws-lambda-component-" ++ inst.stage ++ "-" ++ randomId))
    roleArn := jsOrOpt inputs.roleArn inst.state.roleArn
    roleName := "lambda-role-" ++ inst.stage ++ "-" ++ randomId
    description := jsOrStr inputs.description "AWS Lambda Component"
    memory := jsOrInt inputs.memory 1028
    timeout := jsOrInt inputs.timeout 10
    src := jsOrStr inputs.src cwd
    handler := jsOrStr inputs.handler "index.handler"
    runtime := "nodejs12.x"
    env := inputs.env.getD []
    region := jsOrStr inputs.region "us-east-1"
    layers := inputs.layers.getD []
    securityGroupIds := inputs.vpcConfig.map VpcConfigInput.securityGroupIds
    subnetIds := inputs.vpcConfig.map VpcConfigInput.subnetIds }

/-- The provider operations issued by the component, at the granularity of the
AWS SDK calls made by src/src/utils.js.  Payloads record the identifiers the
claims are about (function name, role name, role ARN passed as the Role
parameter); attachRolePolicy and detachRolePolicy always use the basic
execution policy ARN. -/
inductive Op where
  | getRole (roleName : String)
  | createRole (roleName : String)
  | attachRolePolicy (roleName : String)
  | detachRolePolicy (roleName : String)
  | deleteRole (roleName : String)
  | getFunction (functionName : String)
  | createFunction (functionName : String) (roleArn : Option String)
  | updateFunctionCode (functionName : String)
  | updateFunctionConfiguration (functionName : String) (roleArn : Option String)
  | deleteFunction (functionName : String)
deriving DecidableEq, Repr

def Op.isUpdateCode : Op → Bool
  | Op.updateFunctionCode _ => true
  | _ => false

def Op.isUpdateConfig : Op → Bool
  | Op.updateFunctionConfiguration _ _ => true
  | _ => false

def Op.isDeleteRole : Op → Bool
  | Op.deleteRole _ => true
  | _ => false

def Op.isDeleteFunction : Op → Bool
  | Op.deleteFunction _ => true
  | _ => false

/-- JavaScript String.split on a single-character separator, over the
character list of the string. -/
def splitOnChar (c : Char) : List Char → List (List Char)
  | [] => [[]]
  | x :: xs =>
    let r := splitOnChar c xs
    if x = c then [] :: r
    else
      match r with
      | [] => [[x]]
      | y :: ys => (x :: y) :: ys

/-- The role name extracted from an ARN by `arn.split('/')[1]`
(src/src/utils.js lines 130 and 136). -/
def roleNameFromArn (arn : String) : String :=
  String.mk (((splitOnChar (Char.ofNat 47) arn.data).drop 1).headD [])

/-- removeRole (src/src/utils.js lines 126-144): detach the basic execution
policy and delete the role named by the ARN.  A NoSuchEntity response is
swallowed by the source, so the operations are issued unconditionally. -/
def removeRole (autoRoleArn : String) : List Op :=
  [Op.detachRolePolicy (roleNameFromArn autoRoleArn),
   Op.deleteRole (roleNameFromArn autoRoleArn)]

/-- A provider response to one createFunction attempt: success, the
role-not-assumable eventual-consistency failure, or any other error. -/
inductive CreateResp where
  | ok (arn : String) (hash : String)
  | roleNotAssumable
  | otherError (msg : String)
deriving DecidableEq, Repr

/-- The outcome of the createLambdaFunction retry loop on a finite prefix of
provider responses.  `noResponse` means every supplied response was the
role-not-assumable failure and the loop is still retrying: the source has no
attempt limit, so on an everywhere-failing sequence it never returns. -/
inductive CreateOutcome where
  | created (arn : String) (hash : String)
  | failed (msg : String)
  | noResponse
deriving DecidableEq, Repr

/-- createLambdaFunction (src/src/utils.js lines 151-187): issue a
createFunction call; on the role-not-assumable error message, sleep 5000ms and
recurse with the remaining responses; any other error is rethrown.  Each
recursive call issues one more createFunction operation. -/
def createLambdaFunction (functionName : String) (role : Option String) :
    List CreateResp → List Op × CreateOutcome
  | [] => ([], CreateOutcome.noResponse)
  | r :: rest =>
    match r with
    | CreateResp.ok arn hash =>
        ([Op.createFunction functionName role], CreateOutcome.created arn hash)
    | CreateResp.otherError msg =>
        ([Op.createFunction functionName role], CreateOutcome.failed msg)
    | CreateResp.roleNotAssumable =>
        let retry := createLambdaFunction functionName role rest
        (Op.createFunction functionName role :: retry.1, retry.2)

/-- The provider responses consumed by one deploy call. -/
structure DeployEnv where
  getRoleResult : Option String := none
  createRoleArn : String := ""
  getFunctionResult : Option ObservedLambda := none
  createResponses : List CreateResp := []
deriving DecidableEq, Repr

/-- Errors thrown by deploy.  The source throws plain `Error`s; the
constructors name the conditions: the 100MB size guard, the immutable
name/region guards (spec: ImmutableFieldChangedError), a provider error
surfaced from createFunction, and `incomplete` marking a run whose
createFunction retry loop consumed every supplied response without
returning. -/
inductive DeployError where
  | sizeError
  | immutableName (oldName newName : String)
  | immutableRegion (oldRegion newRegion : String)
  | providerError (msg : String)
  | incomplete
deriving DecidableEq, Repr

/-- The outputs returned by deploy (src/src/serverless.js lines 113-118). -/
structure DeployOutputs where
  name : String
  arn : String
  securityGroupIds : Option (List String)
  subnetIds : Option (List String)
deriving DecidableEq, Repr

/-- Result of the auto-role block of deploy: the IAM operations issued, the
value assigned to `inputs.autoRoleArn` (if any) and the updated component
state. -/
structure RoleEnsureResult where
  ops : List Op
  autoRoleArnInput : Option String
  state : ComponentState
deriving DecidableEq, Repr

/-- Lines 53-66 of src/src/serverless.js: when no roleArn was provided, get or
create the `name`-role and record its ARN in `inputs.autoRoleArn` and
`this.state.autoRoleArn`. createRole also attaches the basic execution
policy. -/
def ensureAutoRole (p : PreparedInputs) (st : ComponentState) (env : DeployEnv) :
    RoleEnsureResult :=
  if jsTruthyStr p.roleArn then
    { ops := [], autoRoleArnInput := none, state := st }
  else
    let iamRoleName := p.name ++ "-role"
    match env.getRoleResult with
    | some arn =>
        { ops := [Op.getRole iamRoleName]
          autoRoleArnInput := some arn
          state := { st with autoRoleArn := some arn } }
    | none =>
        { ops := [Op.getRole iamRoleName, Op.createRole iamRoleName,
                  Op.attachRolePolicy iamRoleName]
          autoRoleArnInput := some env.createRoleArn
          state := { st with autoRoleArn := some env.createRoleArn } }

/-- AwsLambda.deploy (src/src/serverless.js lines 22-119).

Faithful control flow: the 100MB size guard, prepareInputs, the immutable
name and region guards (which run before any provider call — getClients only
constructs SDK clients), the auto-role block, the transition block that
removes the recorded auto role when a roleArn is now provided (the source does
not clear state.autoRoleArn afterwards), the getFunction fetch, and then
either the createLambdaFunction retry loop or the unconditional
updateFunctionCode + updateFunctionConfiguration pair.  The local packaging
steps (unzip, addSDK, zip) perform no provider calls and are omitted from the
trace.  State mutations made before a thrown error persist, as they do on the
JavaScript instance. -/
def AwsLambda.deploy (inst : ComponentInstance) (inputs : RawInputs)
    (env : DeployEnv) (randomId cwd : String) :
    List Op × ComponentState × Except DeployError DeployOutputs :=
  if inst.size > 100000000 then ([], inst.state, Except.error DeployError.sizeError)
  else
    let p := prepareInputs inputs inst randomId cwd
    if jsTruthyStr inst.state.name && (inst.state.name != some p.name) then
      ([], inst.state,
       Except.error (DeployError.immutableName (inst.state.name.getD "") p.name))
    else if jsTruthyStr inst.state.region && (inst.state.region != some p.region) then
      ([], inst.state,
       Except.error (DeployError.immutableRegion (inst.state.region.getD "") p.region))
    else
      let er := ensureAutoRole p inst.state env
      let transOps :=
        if jsTruthyStr p.roleArn && jsTruthyStr er.state.autoRoleArn then
          removeRole (er.state.autoRoleArn.getD "")
        else []
      let roleParam := jsOrOpt p.roleArn er.autoRoleArnInput
      match env.getFunctionResult with
      | none =>
        let cr := createLambdaFunction p.name roleParam env.createResponses
        (er.ops ++ transOps ++ [Op.getFunction p.name] ++ cr.1,
         match cr.2 with
         | CreateOutcome.created arn _ =>
             ({ er.state with name := some p.name, arn := some arn,
                              region := some p.region },
              Except.ok { name := p.name, arn := arn,
                          securityGroupIds := p.securityGroupIds,
                          subnetIds := p.subnetIds })
         | CreateOutcome.failed msg =>
             (er.state, Except.error (DeployError.providerError msg))
         | CreateOutcome.noResponse =>
             (er.state, Except.error DeployError.incomplete))
      | some prev =>
        (er.ops ++ transOps ++
           [Op.getFunction p.name, Op.updateFunctionCode p.name,
            Op.updateFunctionConfiguration p.name roleParam],
         { er.state with name := some p.name, arn := some prev.arn,
                         region := some p.region },
         Except.ok { name := p.name, arn := prev.arn,
                     securityGroupIds := p.securityGroupIds,
                     subnetIds := p.subnetIds })

/-- AwsLambda.remove (src/src/serverless.js lines 125-144): no-op when no name
is recorded; otherwise remove the recorded auto role first (detach + delete),
then delete the function.  The source does not clear the state. -/
def AwsLambda.remove (inst : ComponentInstance) : List Op × ComponentState :=
  if jsTruthyStr inst.state.name then
    let roleOps :=
      if jsTruthyStr inst.state.autoRoleArn then
        removeRole (inst.state.autoRoleArn.getD "")
      else []
    (roleOps ++ [Op.deleteFunction (inst.state.name.getD "")], inst.state)
  else ([], inst.state)

/-- The existing-function branch of the older deploy generations
(src/unnamed/part_004 lines 106-131 and part_003 lines 96-112): when
configChanged reports a difference, upload the code only if the hash differs,
then always update the configuration; otherwise do nothing.  `name` and
`roleArn` are the corresponding fields of the config object, passed separately
to name the operation payloads. -/
def reconcileExisting (name : String) (roleArn : Option String)
    (prevLambda : ObservedLambda) (config : JsObj) : List Op :=
  if configChanged prevLambda.toJs config then
    (if List.lookup "hash" config ≠ some (JsVal.str prevLambda.hash) then
      [Op.updateFunctionCode name]
     else []) ++ [Op.updateFunctionConfiguration name roleArn]
  else []

/-- The state fields read by removeAllRoles in the part_001 generation. -/
structure MetaState where
  userRoleArn : Option String := none
  defaultLambdaRoleName : Option String := none
  metaRoleName : Option String := none
deriving DecidableEq, Repr

/-- removeAllRoles (src/unnamed/part_001 lines 399-415): delete the recorded
default function role and the recorded meta role, by name; returns the role
names passed to extras.removeRole. -/
def removeAllRoles (s : MetaState) : List String :=
  (if jsTruthyStr s.defaultLambdaRoleName then [s.defaultLambdaRoleName.getD ""] else []) ++
  (if jsTruthyStr s.metaRoleName then [s.metaRoleName.getD ""] else [])

/-- The VpcConfig parameter object sent to the provider. -/
structure VpcConfigParam where
  SecurityGroupIds : List String
  SubnetIds : List String
deriving DecidableEq, Repr

/-- The createFunction parameters (src/src/utils.js lines 152-172): VpcConfig
is spread in only when securityGroupIds is truthy (an array, possibly empty);
when it is `false` the field is omitted entirely. -/
structure CreateFunctionParams where
  FunctionName : String
  Description : String
  Handler : String
  MemorySize : Int
  Publish : Bool
  Role : Option String
  Runtime : String
  Timeout : Int
  Layers : List String
  EnvironmentVariables : List (String × String)
  VpcConfig : Option VpcConfigParam
deriving DecidableEq, Repr

def createFunctionParams (inputs : PreparedInputs) (autoRoleArn : Option String) :
    CreateFunctionParams :=
  { FunctionName := inputs.name
    Description := inputs.description
    Handler := inputs.handler
    MemorySize := inputs.memory
    Publish := true
    Role := jsOrOpt inputs.roleArn autoRoleArn
    Runtime := inputs.runtime
    Timeout := inputs.timeout
    Layers := inputs.layers
    EnvironmentVariables := inputs.env
    VpcConfig := match inputs.securityGroupIds with
      | some sg => some { SecurityGroupIds := sg, SubnetIds := inputs.subnetIds.getD [] }
      | none => none }

/-- The updateFunctionConfiguration parameters (src/src/utils.js lines
194-220): VpcConfig is always present — the inputs' lists when
securityGroupIds is truthy, otherwise explicit empty lists. -/
structure UpdateFunctionConfigParams where
  FunctionName : String
  Description : String
  Handler : String
  MemorySize : Int
  Role : Option String
  Runtime : String
  Timeout : Int
  Layers : List String
  EnvironmentVariables : List (String × String)
  VpcConfig : VpcConfigParam
deriving DecidableEq, Repr

def updateFunctionConfigParams (inputs : PreparedInputs) (autoRoleArn : Option String) :
    UpdateFunctionConfigParams :=
  { FunctionName := inputs.name
    Description := inputs.description
    Handler := inputs.handler
    MemorySize := inputs.memory
    Role := jsOrOpt inputs.roleArn autoRoleArn
    Runtime := inputs.runtime
    Timeout := inputs.timeout
    Layers := inputs.layers
    EnvironmentVariables := inputs.env
    VpcConfig := match inputs.securityGroupIds with
      | some sg => { SecurityGroupIds := sg, SubnetIds := inputs.subnetIds.getD [] }
      | none => { SecurityGroupIds := [], SubnetIds := [] } }

/-- One caller-issued call against a component instance: a deploy with its raw
inputs and provider responses, or a remove (whose control flow consumes no
provider responses). -/
inductive Call where
  | deployCall (inputs : RawInputs) (env : DeployEnv) (randomId cwd : String)
  | removeCall
deriving Repr

/-- The auto-role ARNs a call can record into state: the getRole result or the
createRole result of a deploy call. -/
def Call.autoArnCandidates : Call → List String
  | Call.deployCall _ env _ _ => env.getRoleResult.toList ++ [env.createRoleArn]
  | Call.removeCall => []

/-- Execute one call against a component state, returning the issued
operations and the state after the call. -/
def stepCall (stage : String) (s : ComponentState) : Call → List Op × ComponentState
  | Call.deployCall inputs env randomId cwd =>
      let r := AwsLambda.deploy { state := s, stage := stage } inputs env randomId cwd
      (r.1, r.2.1)
  | Call.removeCall =>
      AwsLambda.remove { state := s, stage := stage }

/-- Execute a sequence of deploy/remove calls, concatenating the operation
traces. -/
def runCalls (stage : String) (s : ComponentState) : List Call → List Op × ComponentState
  | [] => ([], s)
  | c :: cs =>
      let r := stepCall stage s c
      let rest := runCalls stage r.2 cs
      (r.1 ++ rest.1, rest.2)

/-- All auto-role ARN candidates of a call sequence. -/
def callsAutoArns : List Call → List String
  | [] => []
  | c :: cs => c.autoArnCandidates ++ callsAutoArns cs

/-- The ordering property the specification requires of a removal trace: every
delete-function operation precedes every delete-role operation. -/
def functionDeletedBeforeRoleDeletes (t : List Op) : Prop :=
  ∀ i < t.length, ∀ j < t.length,
    (t.getD i (Op.getFunction "")).isDeleteFunction = true →
    (t.getD j (Op.getFunction "")).isDeleteRole = true → i < j

instance (t : List Op) : Decidable (functionDeletedBeforeRoleDeletes t) := by
  unfold functionDeletedBeforeRoleDeletes
  infer_instance

/-- Concrete sample data used to evaluate the embedded operations. -/
def sampleUserRoleArn : String := "arn:aws:iam::123456789012:role/user-role"

def sampleFnArn : String := "arn:aws:lambda:us-east-1:123456789012:function:fn"

def sampleInputs : RawInputs := { name := some "fn", roleArn := some sampleUserRoleArn }

def envCreateOk : DeployEnv :=
  { createResponses := [CreateResp.ok sampleFnArn "hash1"] }

def freshInstance : ComponentInstance := { state := {}, stage := "dev" }

/-- The function state the provider reports right after the first sample
deploy: every field matches the prepared sample inputs. -/
def sampleObserved : ObservedLambda :=
  { name := "fn", description := "AWS Lambda Component", timeout := 10,
    runtime := "nodejs12.x", roleArnNested := sampleUserRoleArn,
    handler := "index.handler", memory := 1028, hash := "hash1", env := [],
    arn := sampleFnArn, securityGroupIds := none, subnetIds := none }

def envFound : DeployEnv := { getFunctionResult := some sampleObserved }

/-- First deploy of the sample scenario: function absent, creation succeeds. -/
def deployFirst : List Op × ComponentState × Except DeployError DeployOutputs :=
  AwsLambda.deploy freshInstance sampleInputs envCreateOk "rid0" "/cwd"

/-- Second deploy with the identical inputs, against the function the first
deploy created. -/
def deploySecond : List Op × ComponentState × Except DeployError DeployOutputs :=
  AwsLambda.deploy { state := deployFirst.2.1, stage := "dev" } sampleInputs envFound
    "rid0" "/cwd"

/-- An instance with a recorded function and a recorded auto-created role. -/
def recordedInstance : ComponentInstance :=
  { state := { name := some "fn", region := some "us-east-1",
               arn := some sampleFnArn,
               autoRoleArn := some "arn:aws:iam::123456789012:role/fn-role" },
    stage := "dev" }

def c4Inst : ComponentInstance := { state := { name := some "f1" }, stage := "dev" }

def c4Inputs : RawInputs := { name := some "f2" }

def c4RegInst : ComponentInstance :=
  { state := { name := some "fn", region := some "eu-west-1" }, stage := "dev" }

def c4RegInputs : RawInputs := { name := some "fn", region := some "us-east-1" }

def c5Inputs : RawInputs :=
  { name := some "fn", roleArn := some sampleUserRoleArn,
    provisionedConcurrency := some 5, aliasName := none }

def c5Run : List Op × ComponentState × Except DeployError DeployOutputs :=
  AwsLambda.deploy freshInstance c5Inputs envCreateOk "rid0" "/cwd"

/-- Two configuration objects that agree on every key of the comparable field
set and differ only in their layers. -/
def layersPrev : JsObj :=
  [("description", JsVal.str "d"), ("runtime", JsVal.str "nodejs12.x"),
   ("roleArn", JsVal.str "r"), ("handler", JsVal.str "h.h"),
   ("memory", JsVal.num 1028), ("timeout", JsVal.num 10),
   ("env", JsVal.strObj []), ("hash", JsVal.str "hash1"),
   ("securityGroupIds", JsVal.bool false), ("subnetIds", JsVal.bool false),
   ("layers", JsVal.strList ["arn:aws:lambda:us-east-1:123456789012:layer:l:1"])]

def layersNext : JsObj :=
  [("description", JsVal.str "d"), ("runtime", JsVal.str "nodejs12.x"),
   ("roleArn", JsVal.str "r"), ("handler", JsVal.str "h.h"),
   ("memory", JsVal.num 1028), ("timeout", JsVal.num 10),
   ("env", JsVal.strObj []), ("hash", JsVal.str "hash1"),
   ("securityGroupIds", JsVal.bool false), ("subnetIds", JsVal.bool false),
   ("layers", JsVal.strList ["arn:aws:lambda:us-east-1:123456789012:layer:l:2"])]

/-- An observed state and a desired config that agree on every compared field
except the code hash. -/
def hashPrevObserved : ObservedLambda :=
  { name := "fn", description := "d", timeout := 10, runtime := "nodejs12.x",
    roleArnNested := sampleUserRoleArn, handler := "h.h", memory := 512,
    hash := "hashOld", env := [], arn := sampleFnArn,
    securityGroupIds := none, subnetIds := none }

def hashNextConfig : JsObj :=
  [("name", JsVal.str "fn"), ("description", JsVal.str "d"),
   ("runtime", JsVal.str "nodejs12.x"), ("handler", JsVal.str "h.h"),
   ("memory", JsVal.num 512), ("timeout", JsVal.num 10),
   ("env", JsVal.strObj []), ("hash", JsVal.str "hashNew"),
   ("securityGroupIds", JsVal.bool false), ("subnetIds", JsVal.bool false)]

/-- A deploy that takes the auto-role path, followed by a remove. -/
def autoDeployInputs : RawInputs := { name := some "fn" }

def autoDeployEnv : DeployEnv :=
  { getRoleResult := none,
    createRoleArn := "arn:aws:iam::123456789012:role/fn-role",
    createResponses := [CreateResp.ok sampleFnArn "hash1"] }

def sampleCalls : List Call :=
  [Call.deployCall autoDeployInputs autoDeployEnv "rid0" "/cwd", Call.removeCall]

def sampleResponse : FunctionConfigResponse :=
  { FunctionName := "fn", Description := "d", Timeout := 10,
    Runtime := "nodejs12.x", Role := sampleUserRoleArn, Handler := "h.h",
    MemorySize := 512, CodeSha256 := "hash1", Environment := none,
    FunctionArn := sampleFnArn, VpcConfig := none }

def roleArnConfig : JsObj := [("roleArn", JsVal.str sampleUserRoleArn)]

def noVpcPrepared : PreparedInputs :=
  prepareInputs sampleInputs freshInstance "rid0" "/cwd"

theorem lookup_pick (keys : List String) (o : JsObj) (k : String) :
    List.lookup k (pick keys o) = if k ∈ keys then List.lookup k o else none := by
  induction keys with
  | nil => simp [pick]
  | cons k' ks ih =>
    by_cases hk : k = k'
    · subst hk
      cases h : List.lookup k o with
      | none => simp [pick, h, ih]
      | some v => simp [pick, h, List.lookup]
    · have hbeq : (k == k') = false := by simp [hk]
      cases h : List.lookup k' o with
      | none => simp [pick, h, ih, hk]
      | some v => simp [pick, h, List.lookup, hbeq, hk, ih]

theorem pick_congr (keys : List String) (a b : JsObj)
    (h : ∀ k ∈ keys, List.lookup k a = List.lookup k b) : pick keys a = pick keys b := by
  induction keys with
  | nil => rfl
  | cons k' ks ih =>
    have h1 : List.lookup k' a = List.lookup k' b := h k' (List.mem_cons_self k' ks)
    have h2 : pick ks a = pick ks b := ih (fun k hk => h k (List.mem_cons_of_mem k' hk))
    simp [pick, h1, h2]

theorem pick_eq_iff (keys : List String) (a b : JsObj) :
    pick keys a = pick keys b ↔ ∀ k ∈ keys, List.lookup k a = List.lookup k b := by
  constructor
  · intro h k hk
    have ha := lookup_pick keys a k
    have hb := lookup_pick keys b k
    rw [h, hb, if_pos hk] at ha
    rw [if_pos hk] at ha
    exact ha.symm
  · exact pick_congr keys a b

theorem ensureAutoRole_filter (p : PreparedInputs) (st : ComponentState)
    (env : DeployEnv) (q : Op → Bool)
    (h1 : ∀ s, q (Op.getRole s) = false)
    (h2 : ∀ s, q (Op.createRole s) = false)
    (h3 : ∀ s, q (Op.attachRolePolicy s) = false) :
    (ensureAutoRole p st env).ops.filter q = [] := by
  unfold ensureAutoRole
  split
  · rfl
  · split <;> simp [List.filter_cons, h1, h2, h3]

theorem removeRole_filter (arn : String) (q : Op → Bool)
    (h1 : ∀ s, q (Op.detachRolePolicy s) = false)
    (h2 : ∀ s, q (Op.deleteRole s) = false) :
    (removeRole arn).filter q = [] := by
  simp [removeRole, List.filter_cons, h1, h2]

/-- C1: the claim states that a second deploy with identical inputs issues
zero update operations.  In src/src/serverless.js the update branch is
unconditional: the first sample deploy succeeds, and the second deploy with
the identical inputs — against an observed state equal to what was created —
issues one update-code and one update-configuration call. -/
theorem c1_counterexample :
    deployFirst.2.2 = Except.ok
      { name := "fn", arn := sampleFnArn, securityGroupIds := none, subnetIds := none } ∧
    (deploySecond.1.filter Op.isUpdateCode).length = 1 ∧
    (deploySecond.1.filter Op.isUpdateConfig).length = 1 :=
  ⟨rfl, rfl, rfl⟩

/-- C1 (amended): whenever deploy passes the size and immutability guards and
the fetch finds the function, it issues exactly one update-code and exactly
one update-configuration call, regardless of whether anything changed — the
deploy never consults the change detector and has no no-op branch. -/
theorem c1_unconditional_update (inst : ComponentInstance) (inputs : RawInputs)
    (env : DeployEnv) (randomId cwd : String) (prev : ObservedLambda)
    (hsize : inst.size ≤ 100000000)
    (hname : (jsTruthyStr inst.state.name
        && (inst.state.name != some (prepareInputs inputs inst randomId cwd).name))
        = false)
    (hregion : (jsTruthyStr inst.state.region
        && (inst.state.region != some (prepareInputs inputs inst randomId cwd).region))
        = false)
    (hprev : env.getFunctionResult = some prev) :
    ((AwsLambda.deploy inst inputs env randomId cwd).1.filter Op.isUpdateCode).length = 1 ∧
    ((AwsLambda.deploy inst inputs env randomId cwd).1.filter Op.isUpdateConfig).length = 1 := by
  simp only [AwsLambda.deploy, hprev]
  rw [if_neg (by omega), if_neg (by simp [hname]), if_neg (by simp [hregion])]
  constructor
  · rw [List.filter_append, List.filter_append,
      ensureAutoRole_filter _ _ _ _ (fun _ => rfl) (fun _ => rfl) (fun _ => rfl)]
    split
    · rw [removeRole_filter _ _ (fun _ => rfl) (fun _ => rfl)]
      rfl
    · rfl
  · rw [List.filter_append, List.filter_append,
      ensureAutoRole_filter _ _ _ _ (fun _ => rfl) (fun _ => rfl) (fun _ => rfl)]
    split
    · rw [removeRole_filter _ _ (fun _ => rfl) (fun _ => rfl)]
      rfl
    · rfl

theorem c1_unconditional_update_witness :
    ((AwsLambda.deploy { state := deployFirst.2.1, stage := "dev" } sampleInputs
        envFound "rid0" "/cwd").1.filter Op.isUpdateCode).length = 1 ∧
    ((AwsLambda.deploy { state := deployFirst.2.1, stage := "dev" } sampleInputs
        envFound "rid0" "/cwd").1.filter Op.isUpdateConfig).length = 1 :=
  c1_unconditional_update { state := deployFirst.2.1, stage := "dev" } sampleInputs
    envFound "rid0" "/cwd" sampleObserved (by decide) (by decide) (by decide) rfl

/-- C4: a deploy whose prepared name differs from the persisted name fails
with the immutable-name error before any provider call is issued and leaves
the state untouched (so the existing function is neither deleted nor
recreated); likewise for a changed region once the name check passes. -/
theorem c4_immutable_rejected :
    (∀ (inst : ComponentInstance) (inputs : RawInputs) (env : DeployEnv)
        (randomId cwd nm : String),
      inst.size ≤ 100000000 →
      inst.state.name = some nm → nm ≠ "" →
      nm ≠ (prepareInputs inputs inst randomId cwd).name →
      AwsLambda.deploy inst inputs env randomId cwd
        = ([], inst.state,
           Except.error (DeployError.immutableName nm
             (prepareInputs inputs inst randomId cwd).name)))
  ∧ (∀ (inst : ComponentInstance) (inputs : RawInputs) (env : DeployEnv)
        (randomId cwd rg : String),
      inst.size ≤ 100000000 →
      inst.state.name = some (prepareInputs inputs inst randomId cwd).name →
      inst.state.region = some rg → rg ≠ "" →
      rg ≠ (prepareInputs inputs inst randomId cwd).region →
      AwsLambda.deploy inst inputs env randomId cwd
        = ([], inst.state,
           Except.error (DeployError.immutableRegion rg
             (prepareInputs inputs inst randomId cwd).region))) := by
  constructor
  · intro inst inputs env randomId cwd nm hsize hn hne hdiff
    have hcond : (jsTruthyStr inst.state.name
        && (inst.state.name != some (prepareInputs inputs inst randomId cwd).name))
        = true := by
      rw [hn]
      simp [jsTruthyStr, hne, hdiff]
    simp only [AwsLambda.deploy]
    rw [if_neg (by omega), if_pos hcond, hn]
    rfl
  · intro inst inputs env randomId cwd rg hsize hn hr hrne hrdiff
    have hcond1 : (jsTruthyStr inst.state.name
        && (inst.state.name != some (prepareInputs inputs inst randomId cwd).name))
        = false := by
      rw [hn]
      simp
    have hcond2 : (jsTruthyStr inst.state.region
        && (inst.state.region != some (prepareInputs inputs inst randomId cwd).region))
        = true := by
      rw [hr]
      simp [jsTruthyStr, hrne, hrdiff]
    simp only [AwsLambda.deploy]
    rw [if_neg (by omega), if_neg (by simp [hcond1]), if_pos hcond2, hr]
    rfl

theorem c4_immutable_rejected_witness :
    AwsLambda.deploy c4Inst c4Inputs envFound "rid0" "/cwd"
      = ([], c4Inst.state, Except.error (DeployError.immutableName "f1" "f2")) ∧
    AwsLambda.deploy c4RegInst c4RegInputs envFound "rid0" "/cwd"
      = ([], c4RegInst.state,
         Except.error (DeployError.immutableRegion "eu-west-1" "us-east-1")) :=
  ⟨c4_immutable_rejected.1 c4Inst c4Inputs envFound "rid0" "/cwd" "f1"
      (by decide) rfl (by decide) (by decide),
   c4_immutable_rejected.2 c4RegInst c4RegInputs envFound "rid0" "/cwd" "eu-west-1"
      (by decide) rfl rfl (by decide) (by decide)⟩

/-- C7: the claim states that a code-only change issues an update-code call
and zero update-configuration calls.  In the source's update branch the code
hash is one of the compared keys, so a hash difference triggers the branch,
which uploads the code and then always updates the configuration as well. -/
theorem c7_counterexample :
    reconcileExisting "fn" (some sampleUserRoleArn) hashPrevObserved hashNextConfig
      = [Op.updateFunctionCode "fn",
         Op.updateFunctionConfiguration "fn" (some sampleUserRoleArn)] ∧
    ((reconcileExisting "fn" (some sampleUserRoleArn) hashPrevObserved
        hashNextConfig).filter Op.isUpdateConfig).length = 1 := by decide

/-- C7 (amended): against an existing function whose compared configuration
fields all equal the desired config but whose code hash differs, deploy
issues exactly one update-code call and exactly one update-configuration call,
in that order. -/
theorem c7_code_change_issues_both (name : String) (roleArn : Option String)
    (prev : ObservedLambda) (config : JsObj) (h : String)
    (hsame : ∀ k ∈ changeKeys, k ≠ "hash" →
        List.lookup k config = List.lookup k prev.toJs)
    (hhash : List.lookup "hash" config = some (JsVal.str h))
    (hne : h ≠ prev.hash) :
    reconcileExisting name roleArn prev config
      = [Op.updateFunctionCode name, Op.updateFunctionConfiguration name roleArn] := by
  have hprevhash : List.lookup "hash" prev.toJs = some (JsVal.str prev.hash) := rfl
  have hchanged : configChanged prev.toJs config = true := by
    simp only [configChanged, inputsChanged, Bool.not_eq_true', decide_eq_false_iff_not]
    intro heq
    have hkey := (pick_eq_iff changeKeys config prev.toJs).mp heq "hash" (by decide)
    rw [hhash, hprevhash] at hkey
    simp at hkey
    exact hne hkey
  have hcodediff : List.lookup "hash" config ≠ some (JsVal.str prev.hash) := by
    rw [hhash]
    intro hc
    simp at hc
    exact hne hc
  unfold reconcileExisting
  rw [if_pos hchanged, if_pos hcodediff]
  rfl

theorem c7_code_change_issues_both_witness :
    reconcileExisting "fn" (some sampleUserRoleArn) hashPrevObserved hashNextConfig
      = [Op.updateFunctionCode "fn",
         Op.updateFunctionConfiguration "fn" (some sampleUserRoleArn)] :=
  c7_code_change_issues_both "fn" (some sampleUserRoleArn) hashPrevObserved
    hashNextConfig "hashNew" (by decide) rfl (by decide)

/-- C2: the claim states a bounded retry that surfaces TransientProviderError
once the attempt limit is exhausted.  In the source, createLambdaFunction
retries by unbounded recursion: after 100 consecutive role-not-assumable
failures it has issued 100 createFunction attempts and is still retrying,
having surfaced no error of any kind. -/
theorem c2_counterexample :
    createLambdaFunction "fn" (some sampleUserRoleArn)
        (List.replicate 100 CreateResp.roleNotAssumable)
      = (List.replicate 100 (Op.createFunction "fn" (some sampleUserRoleArn)),
         CreateOutcome.noResponse) := by decide

/-- C2 (amended): the create is retried with a fixed 5000ms sleep after every
role-not-assumable failure, with no attempt limit: for every n, after n such
failures the loop has issued n create attempts and is still retrying (so on a
response sequence that fails with this signal forever it never terminates and
never surfaces an error), and a success after n failures returns the created
function after exactly n+1 attempts. -/
theorem c2_unbounded_retry (functionName : String) (role : Option String)
    (n : Nat) (arn hash : String) :
    createLambdaFunction functionName role
        (List.replicate n CreateResp.roleNotAssumable)
      = (List.replicate n (Op.createFunction functionName role),
         CreateOutcome.noResponse)
    ∧ createLambdaFunction functionName role
        (List.replicate n CreateResp.roleNotAssumable ++ [CreateResp.ok arn hash])
      = (List.replicate (n + 1) (Op.createFunction functionName role),
         CreateOutcome.created arn hash) := by
  induction n with
  | zero => exact ⟨rfl, rfl⟩
  | succ m ih =>
    constructor
    · simp [List.replicate_succ, createLambdaFunction, ih.1]
    · simp [List.replicate_succ, createLambdaFunction, ih.2]

/-- C5: the claim states that provisionedConcurrency without aliasName makes
Deploy fail with ConfigurationError before any provider call.  In the source
there is no such validation: with provisionedConcurrency set and aliasName
empty, deploy issues provider calls and succeeds. -/
theorem c5_counterexample :
    c5Run.1 = [Op.getFunction "fn", Op.createFunction "fn" (some sampleUserRoleArn)] ∧
    c5Run.2.2 = Except.ok
      { name := "fn", arn := sampleFnArn, securityGroupIds := none, subnetIds := none } :=
  ⟨rfl, rfl⟩

/-- C5 (amended): input normalization ignores provisionedConcurrency and
aliasName entirely — prepareInputs is total, never signals any error, and
produces the same desired state whatever those two fields hold. -/
theorem c5_inputs_ignored (inputs : RawInputs) (inst : ComponentInstance)
    (randomId cwd : String) (pc : Option Int) (an : Option String) :
    prepareInputs { inputs with provisionedConcurrency := pc, aliasName := an }
        inst randomId cwd
      = prepareInputs inputs inst randomId cwd := rfl

/-- C6: the claim includes layers in the compared field set.  The source's key
list has no layers entry: two objects that differ only in their layers are
reported as unchanged. -/
theorem c6_counterexample :
    List.lookup "layers" layersNext ≠ List.lookup "layers" layersPrev ∧
    inputsChanged layersPrev layersNext = false := by decide

/-- C6 (amended): the change detector compares exactly the ten keys
description, runtime, roleArn, handler, memory, timeout, env, hash,
securityGroupIds, subnetIds — it reports no change precisely when the two
objects agree on every key of that set, so differences outside the set (in
particular in layers) are never reported. -/
theorem c6_exact_field_set (prevLambda lambda : JsObj) :
    inputsChanged prevLambda lambda = false ↔
      ∀ k ∈ changeKeys, List.lookup k lambda = List.lookup k prevLambda := by
  simp [inputsChanged, pick_eq_iff]

/-- C9: the observed state built by getLambdaFunction exposes the role ARN
only under the nested key role.arn and has no roleArn key, while the compared
key set includes roleArn; hence against any desired config whose roleArn is
defined the detector always reports a change, and the Active-state diff can
never yield equality. -/
theorem c9_roleArn_never_equal (res : FunctionConfigResponse) (cfg : JsObj)
    (a : String) (h : List.lookup "roleArn" cfg = some (JsVal.str a)) :
    inputsChanged (getLambdaFunction res).toJs cfg = true := by
  have hmem : "roleArn" ∈ changeKeys := by decide
  have hnone : List.lookup "roleArn" (getLambdaFunction res).toJs = none := rfl
  simp only [inputsChanged, Bool.not_eq_true', decide_eq_false_iff_not]
  intro heq
  have hkey := (pick_eq_iff changeKeys cfg (getLambdaFunction res).toJs).mp heq
    "roleArn" hmem
  rw [h, hnone] at hkey
  exact Option.noConfusion hkey

theorem c9_roleArn_never_equal_witness :
    inputsChanged (getLambdaFunction sampleResponse).toJs roleArnConfig = true :=
  c9_roleArn_never_equal sampleResponse roleArnConfig sampleUserRoleArn rfl

/-- C10: when securityGroupIds is falsy, the updateFunctionConfiguration
parameters always carry an explicit VpcConfig with empty SecurityGroupIds and
SubnetIds lists, while the createFunction parameters omit the VpcConfig field
entirely. -/
theorem c10_vpc_update_vs_create (inputs : PreparedInputs)
    (autoRoleArn : Option String) (h : inputs.securityGroupIds = none) :
    (updateFunctionConfigParams inputs autoRoleArn).VpcConfig
        = { SecurityGroupIds := [], SubnetIds := [] } ∧
    (createFunctionParams inputs autoRoleArn).VpcConfig = none := by
  constructor <;> simp [updateFunctionConfigParams, createFunctionParams, h]

theorem c10_vpc_update_vs_create_witness :
    (updateFunctionConfigParams noVpcPrepared none).VpcConfig
        = { SecurityGroupIds := [], SubnetIds := [] } ∧
    (createFunctionParams noVpcPrepared none).VpcConfig = none :=
  c10_vpc_update_vs_create noVpcPrepared none rfl

theorem jsTruthyStr_eq_true {o : Option String} (h : jsTruthyStr o = true) :
    ∃ s, o = some s ∧ s ≠ "" := by
  cases o with
  | none => simp [jsTruthyStr] at h
  | some s => exact ⟨s, rfl, by simpa [jsTruthyStr] using h⟩

theorem ensureAutoRole_of_truthy (p : PreparedInputs) (st : ComponentState)
    (env : DeployEnv) (h : jsTruthyStr p.roleArn = true) :
    ensureAutoRole p st env = { ops := [], autoRoleArnInput := none, state := st } := by
  unfold ensureAutoRole
  rw [if_pos h]

theorem ensureAutoRole_no_deleteRole (p : PreparedInputs) (st : ComponentState)
    (env : DeployEnv) (n : String) :
    Op.deleteRole n ∉ (ensureAutoRole p st env).ops := by
  unfold ensureAutoRole
  split
  · simp
  · split <;> simp

theorem ensureAutoRole_state_auto (p : PreparedInputs) (st : ComponentState)
    (env : DeployEnv) :
    (ensureAutoRole p st env).state.autoRoleArn = st.autoRoleArn ∨
    ∃ a, a ∈ env.getRoleResult.toList ++ [env.createRoleArn] ∧
      (ensureAutoRole p st env).state.autoRoleArn = some a := by
  unfold ensureAutoRole
  split
  · exact Or.inl rfl
  · cases hg : env.getRoleResult with
    | some arn => exact Or.inr ⟨arn, by simp [hg], by simp [hg]⟩
    | none => exact Or.inr ⟨env.createRoleArn, by simp [hg], by simp [hg]⟩

theorem createLambdaFunction_ops_mem (functionName : String) (role : Option String)
    (resps : List CreateResp) (o : Op)
    (h : o ∈ (createLambdaFunction functionName role resps).1) :
    o = Op.createFunction functionName role := by
  induction resps with
  | nil => simp [createLambdaFunction] at h
  | cons r rest ih =>
    cases r with
    | ok arn hash =>
      simp [createLambdaFunction] at h
      exact h
    | otherError msg =>
      simp [createLambdaFunction] at h
      exact h
    | roleNotAssumable =>
      simp [createLambdaFunction] at h
      cases h with
      | inl h => exact h
      | inr h => exact ih h

theorem deploy_deleteRole_mem (inst : ComponentInstance) (inputs : RawInputs)
    (env : DeployEnv) (randomId cwd : String) (n : String)
    (h : Op.deleteRole n ∈ (AwsLambda.deploy inst inputs env randomId cwd).1) :
    ∃ a, inst.state.autoRoleArn = some a ∧ n = roleNameFromArn a := by
  simp only [AwsLambda.deploy] at h
  split at h
  · simp at h
  · split at h
    · simp at h
    · split at h
      · simp at h
      · split at h
        · rw [List.append_assoc, List.append_assoc, List.mem_append] at h
          cases h with
          | inl h => exact absurd h (ensureAutoRole_no_deleteRole _ _ _ n)
          | inr h =>
            rw [List.mem_append] at h
            cases h with
            | inl h =>
              split at h
              · rename_i hcond
                rw [Bool.and_eq_true] at hcond
                have her := ensureAutoRole_of_truthy
                  (prepareInputs inputs inst randomId cwd) inst.state env hcond.1
                rw [her] at h hcond
                obtain ⟨a, ha, hane⟩ := jsTruthyStr_eq_true hcond.2
                refine ⟨a, ha, ?_⟩
                rw [ha] at h
                simp [removeRole] at h
                exact h
              · simp at h
            | inr h =>
              rw [List.mem_append] at h
              cases h with
              | inl h => simp at h
              | inr h =>
                have := createLambdaFunction_ops_mem _ _ _ _ h
                exact absurd this (by simp)
        · rw [List.append_assoc, List.mem_append] at h
          cases h with
          | inl h => exact absurd h (ensureAutoRole_no_deleteRole _ _ _ n)
          | inr h =>
            rw [List.mem_append] at h
            cases h with
            | inl h =>
              split at h
              · rename_i hcond
                rw [Bool.and_eq_true] at hcond
                have her := ensureAutoRole_of_truthy
                  (prepareInputs inputs inst randomId cwd) inst.state env hcond.1
                rw [her] at h hcond
                obtain ⟨a, ha, hane⟩ := jsTruthyStr_eq_true hcond.2
                refine ⟨a, ha, ?_⟩
                rw [ha] at h
                simp [removeRole] at h
                exact h
              · simp at h
            | inr h => simp at h

theorem deploy_state_cases (inst : ComponentInstance) (inputs : RawInputs)
    (env : DeployEnv) (randomId cwd : String) :
    (AwsLambda.deploy inst inputs env randomId cwd).2.1.autoRoleArn
        = (ensureAutoRole (prepareInputs inputs inst randomId cwd)
            inst.state env).state.autoRoleArn
    ∨ (AwsLambda.deploy inst inputs env randomId cwd).2.1.autoRoleArn
        = inst.state.autoRoleArn := by
  simp only [AwsLambda.deploy]
  split
  · exact Or.inr rfl
  · split
    · exact Or.inr rfl
    · split
      · exact Or.inr rfl
      · split <;> (try split) <;> (try split) <;>
          first
            | exact Or.inl rfl
            | exact Or.inr rfl

theorem deploy_state_autoRoleArn (inst : ComponentInstance) (inputs : RawInputs)
    (env : DeployEnv) (randomId cwd : String) :
    (AwsLambda.deploy inst inputs env randomId cwd).2.1.autoRoleArn
        = inst.state.autoRoleArn ∨
    ∃ a, a ∈ env.getRoleResult.toList ++ [env.createRoleArn] ∧
      (AwsLambda.deploy inst inputs env randomId cwd).2.1.autoRoleArn = some a := by
  cases deploy_state_cases inst inputs env randomId cwd with
  | inr h => exact Or.inl h
  | inl h =>
    cases ensureAutoRole_state_auto (prepareInputs inputs inst randomId cwd)
        inst.state env with
    | inl h2 => exact Or.inl (by rw [h, h2])
    | inr h2 =>
      obtain ⟨a, ha, h2⟩ := h2
      exact Or.inr ⟨a, ha, by rw [h, h2]⟩

theorem remove_deleteRole_mem (inst : ComponentInstance) (n : String)
    (h : Op.deleteRole n ∈ (AwsLambda.remove inst).1) :
    ∃ a, inst.state.autoRoleArn = some a ∧ n = roleNameFromArn a := by
  unfold AwsLambda.remove at h
  split at h
  · rw [List.mem_append] at h
    cases h with
    | inl h =>
      split at h
      · rename_i hcond
        obtain ⟨a, ha, hane⟩ := jsTruthyStr_eq_true hcond
        refine ⟨a, ha, ?_⟩
        rw [ha] at h
        simp [removeRole] at h
        exact h
      · simp at h
    | inr h => simp at h
  · simp at h

theorem remove_state (inst : ComponentInstance) :
    (AwsLambda.remove inst).2 = inst.state := by
  unfold AwsLambda.remove
  split <;> rfl

theorem stepCall_deleteRole (stage : String) (s : ComponentState) (c : Call)
    (n : String) (h : Op.deleteRole n ∈ (stepCall stage s c).1) :
    ∃ a, s.autoRoleArn = some a ∧ n = roleNameFromArn a := by
  cases c with
  | deployCall inputs env randomId cwd =>
    exact deploy_deleteRole_mem { state := s, stage := stage } inputs env randomId cwd n h
  | removeCall =>
    exact remove_deleteRole_mem { state := s, stage := stage } n h

theorem stepCall_state_auto (stage : String) (s : ComponentState) (c : Call) :
    (stepCall stage s c).2.autoRoleArn = s.autoRoleArn ∨
    ∃ a, a ∈ c.autoArnCandidates ∧ (stepCall stage s c).2.autoRoleArn = some a := by
  cases c with
  | deployCall inputs env randomId cwd =>
    exact deploy_state_autoRoleArn { state := s, stage := stage } inputs env randomId cwd
  | removeCall =>
    left
    rw [stepCall, remove_state]

theorem runCalls_deleteRole (stage : String) (calls : List Call) :
    ∀ (s : ComponentState) (n : String), Op.deleteRole n ∈ (runCalls stage s calls).1 →
      (∃ a, s.autoRoleArn = some a ∧ n = roleNameFromArn a) ∨
      (∃ a, a ∈ callsAutoArns calls ∧ n = roleNameFromArn a) := by
  induction calls with
  | nil =>
    intro s n h
    simp [runCalls] at h
  | cons c cs ih =>
    intro s n h
    simp only [runCalls] at h
    rw [List.mem_append] at h
    cases h with
    | inl hstep => exact Or.inl (stepCall_deleteRole stage s c n hstep)
    | inr hrest =>
      have hr := ih (stepCall stage s c).2 n hrest
      cases hr with
      | inl hl =>
        obtain ⟨a, ha, hn⟩ := hl
        cases stepCall_state_auto stage s c with
        | inl heq =>
          rw [heq] at ha
          exact Or.inl ⟨a, ha, hn⟩
        | inr hsome =>
          obtain ⟨b, hb, hsb⟩ := hsome
          rw [hsb] at ha
          have hab : b = a := by
            injection ha
          right
          refine ⟨a, ?_, hn⟩
          rw [callsAutoArns, List.mem_append]
          exact Or.inl (hab ▸ hb)
      | inr hr2 =>
        obtain ⟨a, hmem, hn⟩ := hr2
        right
        refine ⟨a, ?_, hn⟩
        rw [callsAutoArns, List.mem_append]
        exact Or.inr hmem

/-- C3: during Remove, the delete-function call comes last, after the
auto-role deletion — the reverse of the order the claim states. -/
theorem c3_counterexample :
    ¬ functionDeletedBeforeRoleDeletes (AwsLambda.remove recordedInstance).1 := by
  decide

/-- C3 (amended): the source deletes roles before the function.  During
Remove, the recorded auto role is detached and deleted first and the function
is deleted last; during Deploy's transition to a user-supplied role, the
recorded auto role is deleted before the function is repointed (the
update-configuration call carrying the new role comes after the role
deletion). -/
theorem c3_role_deleted_before_function :
    (∀ (inst : ComponentInstance) (nm a : String),
      inst.state.name = some nm → nm ≠ "" →
      inst.state.autoRoleArn = some a → a ≠ "" →
      (AwsLambda.remove inst).1
        = [Op.detachRolePolicy (roleNameFromArn a), Op.deleteRole (roleNameFromArn a),
           Op.deleteFunction nm])
  ∧ (∀ (inst : ComponentInstance) (inputs : RawInputs) (env : DeployEnv)
        (randomId cwd a : String) (prev : ObservedLambda),
      inst.size ≤ 100000000 →
      (jsTruthyStr inst.state.name
        && (inst.state.name != some (prepareInputs inputs inst randomId cwd).name))
        = false →
      (jsTruthyStr inst.state.region
        && (inst.state.region != some (prepareInputs inputs inst randomId cwd).region))
        = false →
      jsTruthyStr (prepareInputs inputs inst randomId cwd).roleArn = true →
      inst.state.autoRoleArn = some a → a ≠ "" →
      env.getFunctionResult = some prev →
      (AwsLambda.deploy inst inputs env randomId cwd).1
        = [Op.detachRolePolicy (roleNameFromArn a), Op.deleteRole (roleNameFromArn a),
           Op.getFunction (prepareInputs inputs inst randomId cwd).name,
           Op.updateFunctionCode (prepareInputs inputs inst randomId cwd).name,
           Op.updateFunctionConfiguration (prepareInputs inputs inst randomId cwd).name
             (prepareInputs inputs inst randomId cwd).roleArn]) := by
  constructor
  · intro inst nm a hn hne ha hane
    unfold AwsLambda.remove
    rw [if_pos (by rw [hn]; simp [jsTruthyStr, hne])]
    rw [if_pos (by rw [ha]; simp [jsTruthyStr, hane])]
    rw [hn, ha]
    rfl
  · intro inst inputs env randomId cwd a prev hsize hname hregion hrole ha hane hprev
    simp only [AwsLambda.deploy, hprev]
    rw [if_neg (by omega), if_neg (by simp [hname]), if_neg (by simp [hregion])]
    rw [ensureAutoRole_of_truthy _ _ _ hrole]
    rw [if_pos (by
      rw [Bool.and_eq_true]
      exact ⟨hrole, by rw [ha]; simp [jsTruthyStr, hane]⟩)]
    rw [ha]
    have hrp : jsOrOpt (prepareInputs inputs inst randomId cwd).roleArn none
        = (prepareInputs inputs inst randomId cwd).roleArn := by
      rw [jsOrOpt, if_pos hrole]
    rw [hrp]
    rfl

theorem c3_role_deleted_before_function_witness :
    (AwsLambda.remove recordedInstance).1
      = [Op.detachRolePolicy (roleNameFromArn "arn:aws:iam::123456789012:role/fn-role"),
         Op.deleteRole (roleNameFromArn "arn:aws:iam::123456789012:role/fn-role"),
         Op.deleteFunction "fn"] ∧
    (AwsLambda.deploy recordedInstance sampleInputs envFound "rid0" "/cwd").1
      = [Op.detachRolePolicy (roleNameFromArn "arn:aws:iam::123456789012:role/fn-role"),
         Op.deleteRole (roleNameFromArn "arn:aws:iam::123456789012:role/fn-role"),
         Op.getFunction (prepareInputs sampleInputs recordedInstance "rid0" "/cwd").name,
         Op.updateFunctionCode
           (prepareInputs sampleInputs recordedInstance "rid0" "/cwd").name,
         Op.updateFunctionConfiguration
           (prepareInputs sampleInputs recordedInstance "rid0" "/cwd").name
           (prepareInputs sampleInputs recordedInstance "rid0" "/cwd").roleArn] :=
  ⟨c3_role_deleted_before_function.1 recordedInstance "fn"
      "arn:aws:iam::123456789012:role/fn-role" rfl (by decide) rfl (by decide),
   c3_role_deleted_before_function.2 recordedInstance sampleInputs envFound "rid0" "/cwd"
      "arn:aws:iam::123456789012:role/fn-role" sampleObserved (by decide) (by decide)
      (by decide) (by decide) rfl (by decide) rfl⟩

/-- C8: across any sequence of deploy and remove calls starting from an empty
state, every delete-role operation targets a role recorded in the state as
auto-created (an ARN returned by the provider for the derived auto-role name),
so a user-supplied role whose name differs from every auto-created role's name
is never deleted; and removeAllRoles of the part_001 generation only ever
deletes the recorded default function role or the recorded meta role. -/
theorem c8_user_role_never_deleted (stage : String) (calls : List Call) (u : String)
    (hu : ∀ a ∈ callsAutoArns calls, roleNameFromArn a ≠ roleNameFromArn u) :
    Op.deleteRole (roleNameFromArn u) ∉ (runCalls stage {} calls).1 ∧
    (∀ (s : MetaState) (nm : String), nm ∈ removeAllRoles s →
      s.defaultLambdaRoleName = some nm ∨ s.metaRoleName = some nm) := by
  constructor
  · intro hmem
    have hrun := runCalls_deleteRole stage calls {} (roleNameFromArn u) hmem
    cases hrun with
    | inl h =>
      obtain ⟨a, ha, _⟩ := h
      have hnone : (({} : ComponentState)).autoRoleArn = none := rfl
      rw [hnone] at ha
      exact Option.noConfusion ha
    | inr h =>
      obtain ⟨a, hmem2, hn⟩ := h
      exact hu a hmem2 hn.symm
  · intro s nm h
    unfold removeAllRoles at h
    rw [List.mem_append] at h
    cases h with
    | inl h =>
      split at h
      · rename_i hcond
        obtain ⟨s', hs, _⟩ := jsTruthyStr_eq_true hcond
        rw [hs] at h
        simp at h
        left
        rw [hs, h]
      · simp at h
    | inr h =>
      split at h
      · rename_i hcond
        obtain ⟨s', hs, _⟩ := jsTruthyStr_eq_true hcond
        rw [hs] at h
        simp at h
        right
        rw [hs, h]
      · simp at h

theorem c8_user_role_never_deleted_witness :
    Op.deleteRole (roleNameFromArn sampleUserRoleArn)
      ∉ (runCalls "dev" {} sampleCalls).1 :=
  (c8_user_role_never_deleted "dev" sampleCalls sampleUserRoleArn (by decide)).1

end SlsAwsLambda
